import Mathlib

/-!
# Verification of the conference-registration payment backend

Shallow embedding of `backend/server.py`: the pricing engine, the
registration store (a keyed list standing for the Mongo collection),
payment-order issuance and HMAC-SHA256 payment verification, together
with theorems settling the specification's claims about them.

Machine integers are modelled as `Nat` with explicit `% 2^32` where the
hash algorithm needs 32-bit wraparound; Python's unbounded `int` is
modelled as `Int`.
-/

namespace Backend

/-! ## HMAC-SHA256 (the algorithm `hmac.new(secret, msg, hashlib.sha256).hexdigest()` computes)

Bytes are `Nat` values below 256; 32-bit words are `Nat` values below 2^32,
with wraparound made explicit by `w32`.
-/

/-- Truncate to a 32-bit word. -/
def w32 (n : Nat) : Nat := n % 4294967296

/-- Right-rotate a 32-bit word by `n` bits. -/
def rotr (n x : Nat) : Nat := w32 ((x >>> n) ||| (x <<< (32 - n)))

/-- SHA-256 choice function. -/
def shaCh (x y z : Nat) : Nat := (x &&& y) ^^^ ((x ^^^ 4294967295) &&& z)

/-- SHA-256 majority function. -/
def shaMaj (x y z : Nat) : Nat := (x &&& y) ^^^ (x &&& z) ^^^ (y &&& z)

/-- SHA-256 big sigma 0. -/
def bigS0 (x : Nat) : Nat := rotr 2 x ^^^ rotr 13 x ^^^ rotr 22 x

/-- SHA-256 big sigma 1. -/
def bigS1 (x : Nat) : Nat := rotr 6 x ^^^ rotr 11 x ^^^ rotr 25 x

/-- SHA-256 small sigma 0. -/
def smallS0 (x : Nat) : Nat := rotr 7 x ^^^ rotr 18 x ^^^ (x >>> 3)

/-- SHA-256 small sigma 1. -/
def smallS1 (x : Nat) : Nat := rotr 17 x ^^^ rotr 19 x ^^^ (x >>> 10)

/-- The 64 SHA-256 round constants (FIPS 180-4 §4.2.2, written in decimal). -/
def K256 : List Nat :=
  [1116352408, 1899447441, 3049323471, 3921009573, 961987163,
   1508970993, 2453635748, 2870763221, 3624381080, 310598401,
   607225278, 1426881987, 1925078388, 2162078206, 2614888103,
   3248222580, 3835390401, 4022224774, 264347078, 604807628,
   770255983, 1249150122, 1555081692, 1996064986, 2554220882,
   2821834349, 2952996808, 3210313671, 3336571891, 3584528711,
   113926993, 338241895, 666307205, 773529912, 1294757372,
   1396182291, 1695183700, 1986661051, 2177026350, 2456956037,
   2730485921, 2820302411, 3259730800, 3345764771, 3516065817,
   3600352804, 4094571909, 275423344, 430227734, 506948616,
   659060556, 883997877, 958139571, 1322822218, 1537002063,
   1747873779, 1955562222, 2024104815, 2227730452, 2361852424,
   2428436474, 2756734187, 3204031479, 3329325298]

/-- The SHA-256 working state: eight 32-bit words. -/
structure Sha256State where
  a : Nat
  b : Nat
  c : Nat
  d : Nat
  e : Nat
  f : Nat
  g : Nat
  h : Nat
deriving Repr

/-- SHA-256 initial hash value (FIPS 180-4 §5.3.3, written in decimal). -/
def sha256Init : Sha256State :=
  ⟨1779033703, 3144134277, 1013904242, 2773480762,
   1359893119, 2600822924, 528734635, 1541459225⟩

/-- One SHA-256 compression round. -/
def roundStep (st : Sha256State) (k w : Nat) : Sha256State :=
  let t1 := w32 (st.h + bigS1 st.e + shaCh st.e st.f st.g + k + w)
  let t2 := w32 (bigS0 st.a + shaMaj st.a st.b st.c)
  ⟨w32 (t1 + t2), st.a, st.b, st.c, w32 (st.d + t1), st.e, st.f, st.g⟩

/-- Run the 64 compression rounds over the (constant, schedule-word) pairs. -/
def roundsGo : List (Nat × Nat) → Sha256State → Sha256State
  | [], st => st
  | (k, w) :: rest, st => roundsGo rest (roundStep st k w)

/-- Extend the 16 message words to the 64-word schedule (`n` more words). -/
def extendSchedule : Nat → Array Nat → Array Nat
  | 0, ws => ws
  | n + 1, ws =>
    let i := ws.size
    let w := w32 (smallS1 (ws.getD (i - 2) 0) + ws.getD (i - 7) 0 +
                  smallS0 (ws.getD (i - 15) 0) + ws.getD (i - 16) 0)
    extendSchedule n (ws.push w)

/-- Group bytes into big-endian 32-bit words (drops a trailing partial word;
inputs are always a multiple of four bytes). -/
def bytesToWords : List Nat → List Nat
  | a :: b :: c :: d :: rest => (((a * 256 + b) * 256 + c) * 256 + d) :: bytesToWords rest
  | _ => []

/-- Compress one 64-byte block into the running state. -/
def compress (st : Sha256State) (block : List Nat) : Sha256State :=
  let ws := extendSchedule 48 (Array.mk (bytesToWords block))
  let fin := roundsGo (K256.zip ws.toList) st
  ⟨w32 (st.a + fin.a), w32 (st.b + fin.b), w32 (st.c + fin.c), w32 (st.d + fin.d),
   w32 (st.e + fin.e), w32 (st.f + fin.f), w32 (st.g + fin.g), w32 (st.h + fin.h)⟩

/-- Process `n` 64-byte chunks of the padded message. -/
def processChunks : Nat → List Nat → Sha256State → Sha256State
  | 0, _, st => st
  | n + 1, bytes, st => processChunks n (bytes.drop 64) (compress st (bytes.take 64))

/-- A 32-bit word as four big-endian bytes. -/
def wordBytes (w : Nat) : List Nat :=
  [w / 16777216 % 256, w / 65536 % 256, w / 256 % 256, w % 256]

/-- The big-endian 64-bit encoding of the message bit length. -/
def lengthBytes (bits : Nat) : List Nat :=
  [bits / 72057594037927936 % 256, bits / 281474976710656 % 256,
   bits / 1099511627776 % 256, bits / 4294967296 % 256,
   bits / 16777216 % 256, bits / 65536 % 256, bits / 256 % 256, bits % 256]

/-- SHA-256 of a byte string: pad, compress each block, emit the 32 digest bytes. -/
def sha256 (msg : List Nat) : List Nat :=
  let L := msg.length
  let z := (119 - L % 64) % 64
  let padded := msg ++ 128 :: (List.replicate z 0 ++ lengthBytes (8 * L))
  let st := processChunks (padded.length / 64) padded sha256Init
  ([st.a, st.b, st.c, st.d, st.e, st.f, st.g, st.h].map wordBytes).flatten

/-- HMAC-SHA256 over byte strings (block size 64, as `hmac` with `hashlib.sha256`). -/
def hmacSha256 (key msg : List Nat) : List Nat :=
  let key0 := if 64 < key.length then sha256 key else key
  let keyP := key0 ++ List.replicate (64 - key0.length) 0
  let ipad := keyP.map (fun b => b ^^^ 0x36)
  let opad := keyP.map (fun b => b ^^^ 0x5c)
  sha256 (opad ++ sha256 (ipad ++ msg))

/-- The UTF-8 encoding of a code point (what Python's `str.encode()` emits). -/
def utf8EncodeChar (c : Nat) : List Nat :=
  if c < 0x80 then [c]
  else if c < 0x800 then [0xc0 + c / 0x40, 0x80 + c % 0x40]
  else if c < 0x10000 then
    [0xe0 + c / 0x1000, 0x80 + c / 0x40 % 0x40, 0x80 + c % 0x40]
  else
    [0xf0 + c / 0x40000, 0x80 + c / 0x1000 % 0x40, 0x80 + c / 0x40 % 0x40, 0x80 + c % 0x40]

/-- A string's UTF-8 bytes. -/
def strBytes (s : String) : List Nat :=
  (s.data.map (fun c => utf8EncodeChar c.toNat)).flatten

/-- A hex digit, lowercase. -/
def hexDigitChar (n : Nat) : Char :=
  Char.ofNat (if n < 10 then 48 + n else 87 + n)

/-- Bytes rendered as a lowercase hexadecimal string (Python's `.hexdigest()`). -/
def bytesToHex (bs : List Nat) : String :=
  String.mk ((bs.map (fun b => [hexDigitChar (b / 16), hexDigitChar (b % 16)])).flatten)

/-- `hmac.new(secret.encode(), message.encode(), hashlib.sha256).hexdigest()`. -/
def hmacSha256Hex (secret message : String) : String :=
  bytesToHex (hmacSha256 (strBytes secret) (strBytes message))

/-! ## Data model (`server.py`, models section)

Python's unbounded `int` is `Int`; `Optional[str]` is `Option String`;
`datetime` values are carried as their ISO strings (the store itself holds
the ISO string). `uuid.uuid4()` and `datetime.now()` are environment
inputs, so the fresh id and timestamp are explicit parameters.
-/

/-- Python truthiness of a string: empty is falsy. -/
def pyTruthy (s : String) : Bool := s != ""

/-- Python truthiness of an `Optional[str]`: `None` and `""` are falsy. -/
def pyTruthyOpt : Option String → Bool
  | none => false
  | some s => pyTruthy s

/-- `RegistrationCreate` (`server.py` lines 38-49): the client's request body. -/
structure RegistrationCreate where
  full_name : String
  email : String
  phone : String
  category : String
  organization : Option String := none
  designation : Option String := none
  address : Option String := none
  accommodation_required : Bool := false
  room_type : Option String := none
  check_in_date : Option String := none
  check_out_date : Option String := none
deriving Repr, DecidableEq

/-- `Registration` (`server.py` lines 51-70): the stored record. -/
structure Registration where
  id : String
  full_name : String
  email : String
  phone : String
  category : String
  organization : Option String := none
  designation : Option String := none
  address : Option String := none
  accommodation_required : Bool := false
  room_type : Option String := none
  check_in_date : Option String := none
  check_out_date : Option String := none
  amount : Int := 0
  payment_status : String := "pending"
  order_id : Option String := none
  payment_id : Option String := none
  created_at : String
deriving Repr, DecidableEq

/-- `OrderCreate` (`server.py` lines 90-93): amount in paise, caller-supplied. -/
structure OrderCreate where
  amount : Int
  currency : String := "INR"
  registration_id : String
deriving Repr, DecidableEq

/-- `PaymentVerification` (`server.py` lines 95-99). -/
structure PaymentVerification where
  razorpay_order_id : String
  razorpay_payment_id : String
  razorpay_signature : String
  registration_id : String
deriving Repr, DecidableEq

/-- A FastAPI `HTTPException`: status code and detail message. -/
structure HTTPException where
  status_code : Nat
  detail : String
deriving Repr, DecidableEq

/-- The Razorpay credentials read from the environment (`server.py` lines 25-26);
a missing variable reads as `""`.  `razorpay_client` is constructed iff both are
truthy (lines 27-29). -/
structure GatewayConfig where
  razorpay_key_id : String
  razorpay_key_secret : String
deriving Repr, DecidableEq

/-- `razorpay_client is not None`: both credentials truthy (`server.py` lines 27-29). -/
def razorpayConfigured (cfg : GatewayConfig) : Bool :=
  pyTruthy cfg.razorpay_key_id && pyTruthy cfg.razorpay_key_secret

/-! ## Pricing tables (`server.py` lines 102-117) -/

/-- `PRICING` (amounts in INR). -/
def PRICING : String → Option Int
  | "delegate_early_bird" => some 12000
  | "delegate_regular" => some 15000
  | "delegate_late" => some 18000
  | "student_early_bird" => some 6000
  | "student_regular" => some 8000
  | "student_late" => some 10000
  | "accompanying_person" => some 5000
  | "workshop_only" => some 3000
  | _ => none

/-- `ROOM_PRICING` (per-night rates in INR). -/
def ROOM_PRICING : String → Option Int
  | "standard" => some 6000
  | "deluxe" => some 8000
  | "suite" => some 12000
  | _ => none

/-! ## Registration store

`db.registrations` is a Mongo collection; the core uses `insert_one`,
`find_one {id}`, and `update_one {id} ($set ...)`.  Modelled as a list of
records in insertion order: `find_one`/`update_one` act on the first
document whose `id` field matches, and `update_one` on a vacuous match is
a silent no-op, exactly Mongo's semantics.
-/

/-- `update_one({"id": rid}, {"$set": ...})`: rewrite the first matching record,
no-op when none matches. -/
def update_first : List Registration → String → (Registration → Registration) → List Registration
  | [], _, _ => []
  | r :: rest, rid, f =>
    if r.id == rid then f r :: rest else r :: update_first rest rid f

/-! ## Endpoints -/

/-- `POST /api/registration` (`server.py` lines 137-158): compute the amount
from the pricing tables (unknown keys contribute zero; accommodation only
when the flag is truthy and a truthy room type is given; nights fixed at 2),
build the record, insert it, return it.  `newId` and `now` stand for
`uuid.uuid4()` and `datetime.now(timezone.utc)`. -/
def create_registration (input_data : RegistrationCreate) (newId now : String)
    (db : List Registration) : Registration × List Registration :=
  let amount := (PRICING input_data.category).getD 0
  let amount :=
    match input_data.accommodation_required, input_data.room_type with
    | true, some rt =>
      if rt == "" then amount
      else
        let room_cost := (ROOM_PRICING rt).getD 0
        let nights : Int := 2
        amount + room_cost * nights
    | _, _ => amount
  let registration : Registration :=
    { id := newId
      full_name := input_data.full_name
      email := input_data.email
      phone := input_data.phone
      category := input_data.category
      organization := input_data.organization
      designation := input_data.designation
      address := input_data.address
      accommodation_required := input_data.accommodation_required
      room_type := input_data.room_type
      check_in_date := input_data.check_in_date
      check_out_date := input_data.check_out_date
      amount := amount * 100
      payment_status := "pending"
      order_id := none
      payment_id := none
      created_at := now }
  (registration, db ++ [registration])

/-- `GET /api/registration/{id}` (`server.py` lines 160-169): first matching
document or 404. -/
def get_registration (registration_id : String) (db : List Registration) :
    Except HTTPException Registration :=
  match db.find? (fun r => r.id == registration_id) with
  | none => .error ⟨404, "Registration not found"⟩
  | some r => .ok r

/-- The order-creation payload `server.py` lines 177-184 send to the gateway. -/
structure GatewayOrderRequest where
  amount : Int
  currency : String
  payment_capture : Nat
  notes_registration_id : String
deriving Repr, DecidableEq

/-- The request body built from `order_data` (`server.py` lines 177-184): the
amount sent to the gateway is the caller-supplied `order_data.amount`. -/
def orderRequest (order_data : OrderCreate) : GatewayOrderRequest :=
  { amount := order_data.amount
    currency := order_data.currency
    payment_capture := 1
    notes_registration_id := order_data.registration_id }

/-- The order object the gateway returns. -/
structure GatewayOrder where
  id : String
  amount : Int
  currency : String
deriving Repr, DecidableEq

/-- The success body of `POST /api/create-order`. -/
structure OrderResponse where
  order_id : String
  amount : Int
  currency : String
  key_id : String
deriving Repr, DecidableEq

/-- The success body of `POST /api/verify-payment` (`server.py` line 230). -/
structure VerifyResponse where
  status : String
  message : String
deriving Repr, DecidableEq

/-- `POST /api/create-order` (`server.py` lines 171-200).  The external gateway
call is the `gateway` argument (an exception there is `.error`); `storageOk`
is whether the store update raises.  Everything in the `try` that raises is
caught and surfaced as a generic 500.  Returns the response together with the
store's final state. -/
def create_order (cfg : GatewayConfig)
    (gateway : GatewayOrderRequest → Except String GatewayOrder)
    (order_data : OrderCreate) (storageOk : Bool) (db : List Registration) :
    Except HTTPException OrderResponse × List Registration :=
  if !razorpayConfigured cfg then
    (.error ⟨500, "Payment gateway not configured"⟩, db)
  else
    match gateway (orderRequest order_data) with
    | .error _ => (.error ⟨500, "Failed to create payment order"⟩, db)
    | .ok order =>
      if storageOk then
        (.ok { order_id := order.id, amount := order.amount,
               currency := order.currency, key_id := cfg.razorpay_key_id },
         update_first db order_data.registration_id (fun r => { r with order_id := some order.id }))
      else
        (.error ⟨500, "Failed to create payment order"⟩, db)

/-- `POST /api/verify-payment` (`server.py` lines 202-235): recompute the
HMAC-SHA256 hex digest of `orderId|paymentId` under the configured secret,
reject a mismatch with 400, otherwise set `payment_status`/`payment_id` on
the first record matching `registration_id` (silent no-op when none does).
`storageOk` is whether the store update raises; a raise is caught and
surfaced as a generic 500, distinct from the 400 mismatch. -/
def verify_payment (cfg : GatewayConfig) (storageOk : Bool)
    (payment_data : PaymentVerification) (db : List Registration) :
    Except HTTPException VerifyResponse × List Registration :=
  if !razorpayConfigured cfg then
    (.error ⟨500, "Payment gateway not configured"⟩, db)
  else
    let message := payment_data.razorpay_order_id ++ "|" ++ payment_data.razorpay_payment_id
    let generated_signature := hmacSha256Hex cfg.razorpay_key_secret message
    if generated_signature != payment_data.razorpay_signature then
      (.error ⟨400, "Invalid payment signature"⟩, db)
    else if storageOk then
      (.ok { status := "success", message := "Payment verified successfully" },
       update_first db payment_data.registration_id
         (fun r => { r with payment_status := "completed",
                            payment_id := some payment_data.razorpay_payment_id }))
    else
      (.error ⟨500, "Payment verification failed"⟩, db)

/-! ## Concrete fixtures used by witnesses and counterexamples -/

/-- A configured credential pair. -/
def cfgSample : GatewayConfig := ⟨"rzp_test_key", "secret"⟩

/-- Credentials with the secret missing (unset env var reads as `""`). -/
def cfgNoSecret : GatewayConfig := ⟨"rzp_test_key", ""⟩

/-- A fixed creation timestamp. -/
def now0 : String := "2026-01-05T09:30:00+00:00"

/-- A plain early-bird delegate registration request, no accommodation. -/
def regInputSample : RegistrationCreate :=
  { full_name := "Asha Rao", email := "asha@example.com", phone := "9000000001",
    category := "delegate_early_bird" }

/-- A regular delegate with a deluxe room. -/
def regInputAccom : RegistrationCreate :=
  { regInputSample with category := "delegate_regular",
                        accommodation_required := true, room_type := some "deluxe" }

/-- A request with a category and room type outside both pricing tables. -/
def regInputUnknown : RegistrationCreate :=
  { regInputSample with category := "alien_vip",
                        accommodation_required := true, room_type := some "tent" }

/-- The record `create_registration` builds for `regInputSample`. -/
def regSample : Registration := (create_registration regInputSample "reg-1" now0 []).1

/-- The store after creating `regSample` in an empty collection. -/
def dbSample : List Registration := (create_registration regInputSample "reg-1" now0 []).2

/-- A verification request whose signature is the genuine digest. -/
def pvSample : PaymentVerification :=
  ⟨"order_1", "pay_1", hmacSha256Hex "secret" "order_1|pay_1", "reg-1"⟩

/-- A second validly signed verification with a different payment id. -/
def pvSecond : PaymentVerification :=
  ⟨"order_1", "pay_2", hmacSha256Hex "secret" "order_1|pay_2", "reg-1"⟩

/-- A validly signed verification naming a registration id nothing matches. -/
def pvGhost : PaymentVerification :=
  ⟨"order_1", "pay_1", hmacSha256Hex "secret" "order_1|pay_1", "ghost"⟩

/-- A verification carrying a forged signature. -/
def pvForged : PaymentVerification := ⟨"order_1", "pay_1", "forged", "reg-1"⟩

/-- An order request whose caller-supplied amount disagrees with the stored one. -/
def odSample : OrderCreate := { amount := 7, currency := "INR", registration_id := "reg-1" }

/-- A gateway that issues `order_1` and, like Razorpay, echoes the requested
amount and currency in the order object. -/
def echoGateway : GatewayOrderRequest → Except String GatewayOrder :=
  fun req => .ok ⟨"order_1", req.amount, req.currency⟩

/-- `regSample` after one successful verification with `pay_1`. -/
def regCompleted : Registration :=
  { regSample with payment_status := "completed", payment_id := some "pay_1" }

/-- A store holding one already-completed registration. -/
def dbCompleted : List Registration := [regCompleted]

/-! ## Store lemmas -/

/-- `update_one` touches no record when nothing matches. -/
theorem update_first_no_match (db : List Registration) (rid : String)
    (f : Registration → Registration) (h : ∀ r ∈ db, r.id ≠ rid) :
    update_first db rid f = db := by
  induction db with
  | nil => rfl
  | cons hd tl ih =>
    have hhd : (hd.id == rid) = false := beq_eq_false_iff_ne.mpr (h hd (by simp))
    simp [update_first, hhd]
    exact ih (fun r hr => h r (by simp [hr]))

/-- Positionally, `update_one` leaves each record alone or rewrites it with `f`. -/
theorem update_first_get? (db : List Registration) (rid : String)
    (f : Registration → Registration) (i : Nat) :
    (update_first db rid f).get? i = db.get? i ∨
    (update_first db rid f).get? i = (db.get? i).map f := by
  induction db generalizing i with
  | nil => simp [update_first]
  | cons hd tl ih =>
    by_cases hh : (hd.id == rid) = true
    · cases i with
      | zero => right; simp [update_first, hh]
      | succ n => left; simp [update_first, hh]
    · cases i with
      | zero => left; simp [update_first, hh]
      | succ n =>
        rcases ih n with h1 | h1
        · left; simpa [update_first, hh] using h1
        · right; simpa [update_first, hh] using h1

/-- A field `f` does not change survives `update_one`. -/
theorem update_first_map (db : List Registration) (rid : String)
    (f : Registration → Registration) {α : Type} (g : Registration → α)
    (hg : ∀ r, g (f r) = g r) :
    (update_first db rid f).map g = db.map g := by
  induction db with
  | nil => rfl
  | cons hd tl ih =>
    by_cases hh : (hd.id == rid) = true
    · simp [update_first, hh, hg]
    · simp [update_first, hh, ih]

/-- `find_one` after `update_one` on the same key returns the rewritten record,
provided the rewrite keeps the key. -/
theorem find?_update_first (db : List Registration) (rid : String)
    (f : Registration → Registration) (r : Registration)
    (hid : ∀ x, (f x).id = x.id)
    (h : db.find? (fun x => x.id == rid) = some r) :
    (update_first db rid f).find? (fun x => x.id == rid) = some (f r) := by
  induction db with
  | nil => simp at h
  | cons hd tl ih =>
    by_cases hh : (hd.id == rid) = true
    · rw [@List.find?_cons_of_pos _ (fun x => x.id == rid) hd tl hh] at h
      have hfr : ((f hd).id == rid) = true := by rw [hid]; exact hh
      simp only [update_first, hh, if_true]
      rw [@List.find?_cons_of_pos _ (fun x => x.id == rid) (f hd) tl hfr]
      simp only [Option.some.injEq] at h
      rw [h]
    · have hh' : ¬ ((fun x : Registration => x.id == rid) hd) = true := by
        simpa using hh
      rw [@List.find?_cons_of_neg _ (fun x => x.id == rid) hd tl hh'] at h
      simp only [update_first, hh, Bool.false_eq_true, if_false]
      rw [@List.find?_cons_of_neg _ (fun x => x.id == rid) hd (update_first tl rid f) hh']
      exact ih h

/-- The two verification updates keep the record's identity. -/
theorem verify_update_keeps_id (p : PaymentVerification) (x : Registration) :
    ({ x with payment_status := "completed",
              payment_id := some p.razorpay_payment_id } : Registration).id = x.id := rfl

/-- Core of a successful verification: configured gateway, matching signature,
healthy store — the response is the success body and the first record matching
the supplied registration id is rewritten to `completed` with the supplied
payment id. -/
theorem verify_valid_core (cfg : GatewayConfig) (payment_data : PaymentVerification)
    (db : List Registration) (r : Registration)
    (hconf : razorpayConfigured cfg = true)
    (hsig : payment_data.razorpay_signature =
      hmacSha256Hex cfg.razorpay_key_secret
        (payment_data.razorpay_order_id ++ "|" ++ payment_data.razorpay_payment_id))
    (hfound : get_registration payment_data.registration_id db = .ok r) :
    (verify_payment cfg true payment_data db).1 =
      .ok ⟨"success", "Payment verified successfully"⟩ ∧
    get_registration payment_data.registration_id (verify_payment cfg true payment_data db).2 =
      .ok { r with payment_status := "completed",
                   payment_id := some payment_data.razorpay_payment_id } := by
  have hfind : db.find? (fun x => x.id == payment_data.registration_id) = some r := by
    unfold get_registration at hfound
    cases hdb : db.find? (fun x => x.id == payment_data.registration_id) with
    | none => rw [hdb] at hfound; exact absurd hfound (by simp)
    | some r0 =>
      rw [hdb] at hfound
      simp only [Except.ok.injEq] at hfound
      rw [hfound]
  constructor
  · simp [verify_payment, hconf, hsig]
  · have hupd := find?_update_first db payment_data.registration_id
      (fun x => { x with payment_status := "completed",
                         payment_id := some payment_data.razorpay_payment_id }) r
      (verify_update_keeps_id payment_data) hfind
    simp [verify_payment, hconf, hsig, get_registration, hupd]

/-- `verify_payment` either leaves the store alone, or succeeds and rewrites the
first record matching the supplied registration id. -/
theorem verify_payment_snd (cfg : GatewayConfig) (so : Bool)
    (payment_data : PaymentVerification) (db : List Registration) :
    (verify_payment cfg so payment_data db).2 = db ∨
    ((verify_payment cfg so payment_data db).2 =
       update_first db payment_data.registration_id
         (fun r => { r with payment_status := "completed",
                            payment_id := some payment_data.razorpay_payment_id }) ∧
     (verify_payment cfg so payment_data db).1 =
       .ok ⟨"success", "Payment verified successfully"⟩) := by
  cases hconf : razorpayConfigured cfg with
  | false => exact Or.inl (by simp [verify_payment, hconf])
  | true =>
    cases hsig : (hmacSha256Hex cfg.razorpay_key_secret
        (payment_data.razorpay_order_id ++ "|" ++ payment_data.razorpay_payment_id) !=
        payment_data.razorpay_signature) with
    | true => exact Or.inl (by simp [verify_payment, hconf, hsig])
    | false =>
      cases so with
      | false => exact Or.inl (by simp [verify_payment, hconf, hsig])
      | true =>
        exact Or.inr ⟨by simp [verify_payment, hconf, hsig],
                      by simp [verify_payment, hconf, hsig]⟩

/-- `create_order` either leaves the store alone, or rewrites only the first
matching record's `order_id`. -/
theorem create_order_snd (cfg : GatewayConfig)
    (gw : GatewayOrderRequest → Except String GatewayOrder)
    (order_data : OrderCreate) (so : Bool) (db : List Registration) :
    (create_order cfg gw order_data so db).2 = db ∨
    ∃ oid, (create_order cfg gw order_data so db).2 =
      update_first db order_data.registration_id (fun r => { r with order_id := some oid }) := by
  cases hconf : razorpayConfigured cfg with
  | false => exact Or.inl (by simp [create_order, hconf])
  | true =>
    cases hgw : gw (orderRequest order_data) with
    | error e => exact Or.inl (by simp [create_order, hconf, hgw])
    | ok order =>
      cases so with
      | false => exact Or.inl (by simp [create_order, hconf, hgw])
      | true => exact Or.inr ⟨order.id, by simp [create_order, hconf, hgw]⟩

/-! ## Algorithm fidelity anchors

Published test vectors, evaluated by the kernel: the embedded digest really
is SHA-256 / HMAC-SHA256. -/

set_option maxRecDepth 4000000 in
/-- FIPS 180-4 test vector: SHA-256 of `"abc"`. -/
theorem sha256_matches_fips_vector :
    bytesToHex (sha256 (strBytes "abc")) =
      "ba7816bf8f01cfea414140de5dae2223b00361a396177a9cb410ff61f20015ad" := by decide

set_option maxRecDepth 4000000 in
/-- Standard HMAC-SHA256 test vector (key `"key"`, the quick-brown-fox message). -/
theorem hmac_matches_published_vector :
    hmacSha256Hex "key" "The quick brown fox jumps over the lazy dog" =
      "f7bc83f430538424b13298e6aa6fb143ef4d59a14946175997479dbc2d1a3cd8" := by decide

/-! ## Claims -/

/-- C1: for every orderId, paymentId and configured gateway secret, `verify`
with the signature equal to the lowercase-hex HMAC-SHA256 digest, under the
secret, of `orderId|paymentId` succeeds, sets the registration's
`payment_status` to `"completed"` and its `payment_id` to the caller-supplied
payment id. -/
theorem verify_valid_signature_completes (cfg : GatewayConfig)
    (payment_data : PaymentVerification) (db : List Registration) (r : Registration)
    (hconf : razorpayConfigured cfg = true)
    (hsig : payment_data.razorpay_signature =
      hmacSha256Hex cfg.razorpay_key_secret
        (payment_data.razorpay_order_id ++ "|" ++ payment_data.razorpay_payment_id))
    (hfound : get_registration payment_data.registration_id db = .ok r) :
    (verify_payment cfg true payment_data db).1 =
      .ok ⟨"success", "Payment verified successfully"⟩ ∧
    get_registration payment_data.registration_id (verify_payment cfg true payment_data db).2 =
      .ok { r with payment_status := "completed",
                   payment_id := some payment_data.razorpay_payment_id } :=
  verify_valid_core cfg payment_data db r hconf hsig hfound

/-- C1 witness: the genuine signature for `order_1|pay_1` completes `reg-1`. -/
theorem verify_valid_signature_completes_witness :
    (verify_payment cfgSample true pvSample dbSample).1 =
      .ok ⟨"success", "Payment verified successfully"⟩ ∧
    get_registration pvSample.registration_id (verify_payment cfgSample true pvSample dbSample).2 =
      .ok { regSample with payment_status := "completed",
                           payment_id := some pvSample.razorpay_payment_id } :=
  verify_valid_signature_completes cfgSample pvSample dbSample regSample rfl rfl rfl

/-- C2: a verify call whose signature differs from the computed digest fails
with the explicit 400 signature-mismatch rejection — distinguishable from the
500 storage-failure rejection — and leaves the store exactly as it was;
repeating the bad attempt any number of times never changes state. -/
theorem verify_signature_mismatch_rejected (cfg : GatewayConfig) (so : Bool)
    (payment_data : PaymentVerification) (db : List Registration)
    (hconf : razorpayConfigured cfg = true)
    (hsig : payment_data.razorpay_signature ≠
      hmacSha256Hex cfg.razorpay_key_secret
        (payment_data.razorpay_order_id ++ "|" ++ payment_data.razorpay_payment_id)) :
    (verify_payment cfg so payment_data db).1 = .error ⟨400, "Invalid payment signature"⟩ ∧
    (verify_payment cfg so payment_data db).2 = db ∧
    (∀ n, (fun d => (verify_payment cfg so payment_data d).2)^[n] db = db) ∧
    (⟨400, "Invalid payment signature"⟩ : HTTPException) ≠
      ⟨500, "Payment verification failed"⟩ := by
  have hne : (hmacSha256Hex cfg.razorpay_key_secret
      (payment_data.razorpay_order_id ++ "|" ++ payment_data.razorpay_payment_id) !=
      payment_data.razorpay_signature) = true := bne_iff_ne.mpr (Ne.symm hsig)
  have hfst : (verify_payment cfg so payment_data db).1 =
      .error ⟨400, "Invalid payment signature"⟩ := by
    simp [verify_payment, hconf, hne]
  have hsnd : ∀ d : List Registration, (verify_payment cfg so payment_data d).2 = d := by
    intro d
    simp [verify_payment, hconf, hne]
  refine ⟨hfst, hsnd db, ?_, by decide⟩
  intro n
  induction n with
  | zero => rfl
  | succ k ihk =>
    rw [Function.iterate_succ_apply]
    simpa [hsnd db] using ihk

set_option maxRecDepth 4000000 in
/-- C2 witness: the forged signature `"forged"` is rejected with 400 and the
store is untouched. -/
theorem verify_signature_mismatch_rejected_witness :
    (verify_payment cfgSample true pvForged dbSample).1 =
      .error ⟨400, "Invalid payment signature"⟩ ∧
    (verify_payment cfgSample true pvForged dbSample).2 = dbSample ∧
    (∀ n, (fun d => (verify_payment cfgSample true pvForged d).2)^[n] dbSample = dbSample) ∧
    (⟨400, "Invalid payment signature"⟩ : HTTPException) ≠
      ⟨500, "Payment verification failed"⟩ :=
  verify_signature_mismatch_rejected cfgSample true pvForged dbSample rfl (by decide)

/-- C4: with the gateway credentials absent, both `create_order` and
`verify_payment` fail with the 500 gateway-not-configured error before doing
anything else, returning the store unmodified. -/
theorem gateway_not_configured_rejects (cfg : GatewayConfig)
    (gw : GatewayOrderRequest → Except String GatewayOrder) (order_data : OrderCreate)
    (so so' : Bool) (payment_data : PaymentVerification) (db : List Registration)
    (h : razorpayConfigured cfg = false) :
    create_order cfg gw order_data so db =
      (.error ⟨500, "Payment gateway not configured"⟩, db) ∧
    verify_payment cfg so' payment_data db =
      (.error ⟨500, "Payment gateway not configured"⟩, db) := by
  constructor
  · simp [create_order, h]
  · simp [verify_payment, h]

/-- C4 witness: with an empty secret, both endpoints reject as unconfigured and
`dbSample` comes back unchanged. -/
theorem gateway_not_configured_rejects_witness :
    create_order cfgNoSecret echoGateway odSample true dbSample =
      (.error ⟨500, "Payment gateway not configured"⟩, dbSample) ∧
    verify_payment cfgNoSecret true pvSample dbSample =
      (.error ⟨500, "Payment gateway not configured"⟩, dbSample) :=
  gateway_not_configured_rejects cfgNoSecret echoGateway odSample true true pvSample dbSample rfl

/-- C9: `verify_payment` never reads the stored registration before updating
it — a valid signature for any (orderId, paymentId) pair completes any
registration, even when the stored `order_id` is null or differs from the
supplied orderId. -/
theorem verify_ignores_stored_order_id (cfg : GatewayConfig)
    (payment_data : PaymentVerification) (db : List Registration) (r : Registration)
    (hconf : razorpayConfigured cfg = true)
    (hsig : payment_data.razorpay_signature =
      hmacSha256Hex cfg.razorpay_key_secret
        (payment_data.razorpay_order_id ++ "|" ++ payment_data.razorpay_payment_id))
    (hfound : get_registration payment_data.registration_id db = .ok r)
    (_hord : r.order_id = none ∨ r.order_id ≠ some payment_data.razorpay_order_id) :
    (verify_payment cfg true payment_data db).1 =
      .ok ⟨"success", "Payment verified successfully"⟩ ∧
    get_registration payment_data.registration_id (verify_payment cfg true payment_data db).2 =
      .ok { r with payment_status := "completed",
                   payment_id := some payment_data.razorpay_payment_id } :=
  verify_valid_core cfg payment_data db r hconf hsig hfound

/-- C9 witness: `reg-1` has no stored `order_id` at all (no order was ever
created for it), yet the validly signed `order_1` verification completes it. -/
theorem verify_ignores_stored_order_id_witness :
    (verify_payment cfgSample true pvSample dbSample).1 =
      .ok ⟨"success", "Payment verified successfully"⟩ ∧
    get_registration pvSample.registration_id (verify_payment cfgSample true pvSample dbSample).2 =
      .ok { regSample with payment_status := "completed",
                           payment_id := some pvSample.razorpay_payment_id } :=
  verify_ignores_stored_order_id cfgSample pvSample dbSample regSample rfl rfl rfl (Or.inl rfl)

/-- C10: a valid signature with a registration id matching nothing in the store
still returns the success body, while every stored registration is left
unchanged — success does not imply any record was marked completed. -/
theorem verify_unknown_registration_noop (cfg : GatewayConfig)
    (payment_data : PaymentVerification) (db : List Registration)
    (hconf : razorpayConfigured cfg = true)
    (hsig : payment_data.razorpay_signature =
      hmacSha256Hex cfg.razorpay_key_secret
        (payment_data.razorpay_order_id ++ "|" ++ payment_data.razorpay_payment_id))
    (habsent : ∀ r ∈ db, r.id ≠ payment_data.registration_id) :
    (verify_payment cfg true payment_data db).1 =
      .ok ⟨"success", "Payment verified successfully"⟩ ∧
    (verify_payment cfg true payment_data db).2 = db := by
  have hupd := update_first_no_match db payment_data.registration_id
    (fun r => { r with payment_status := "completed",
                       payment_id := some payment_data.razorpay_payment_id }) habsent
  constructor
  · simp [verify_payment, hconf, hsig]
  · simp [verify_payment, hconf, hsig, hupd]

/-- C10 witness: verifying against the unknown id `"ghost"` reports success and
leaves the one stored registration untouched. -/
theorem verify_unknown_registration_noop_witness :
    (verify_payment cfgSample true pvGhost dbSample).1 =
      .ok ⟨"success", "Payment verified successfully"⟩ ∧
    (verify_payment cfgSample true pvGhost dbSample).2 = dbSample :=
  verify_unknown_registration_noop cfgSample pvGhost dbSample rfl rfl (by decide)

/-- C3 counterexample: the claim that every createOrder call uses the
registration's stored amount fails — `reg-1` is stored with amount 1200000,
yet the order request sends the caller-supplied 7, and the created order
carries 7. -/
theorem create_order_ignores_stored_amount :
    regSample.amount = 1200000 ∧
    get_registration "reg-1" dbSample = .ok regSample ∧
    orderRequest odSample = ⟨7, "INR", 1, "reg-1"⟩ ∧
    (create_order cfgSample echoGateway odSample true dbSample).1 =
      .ok ⟨"order_1", 7, "INR", "rzp_test_key"⟩ ∧
    (7 : Int) ≠ 1200000 :=
  ⟨rfl, rfl, rfl, rfl, by decide⟩

/-- C3 (amended): the registration's `amount` is fixed at creation — neither
order creation nor verification ever rewrites any stored record's amount —
but `create_order` sends the caller-supplied request amount to the gateway,
which is not required to equal the stored amount. -/
theorem amount_fixed_after_creation (cfg : GatewayConfig)
    (gw : GatewayOrderRequest → Except String GatewayOrder) (order_data : OrderCreate)
    (so : Bool) (payment_data : PaymentVerification) (db : List Registration) :
    (create_order cfg gw order_data so db).2.map Registration.amount =
      db.map Registration.amount ∧
    (verify_payment cfg so payment_data db).2.map Registration.amount =
      db.map Registration.amount ∧
    (orderRequest order_data).amount = order_data.amount := by
  refine ⟨?_, ?_, rfl⟩
  · rcases create_order_snd cfg gw order_data so db with h | ⟨oid, h⟩
    · rw [h]
    · rw [h]; exact update_first_map _ _ _ _ (fun r => rfl)
  · rcases verify_payment_snd cfg so payment_data db with h | ⟨h, _⟩
    · rw [h]
    · rw [h]; exact update_first_map _ _ _ _ (fun r => rfl)

/-- C5: the created amount is `(table[category] + (room part)) * 100` — base
fee alone without accommodation (or without a room type), base plus
`roomRate * 2` with accommodation and a priced room, with the two nights a
constant never derived from the check-in/check-out dates. -/
theorem create_registration_amount_formula (input_data : RegistrationCreate)
    (newId now : String) (db : List Registration) (base : Int)
    (hbase : PRICING input_data.category = some base) :
    (input_data.accommodation_required = false →
      (create_registration input_data newId now db).1.amount = base * 100) ∧
    (input_data.room_type = none →
      (create_registration input_data newId now db).1.amount = base * 100) ∧
    (∀ rt rate, input_data.accommodation_required = true → input_data.room_type = some rt →
      ROOM_PRICING rt = some rate →
      (create_registration input_data newId now db).1.amount = (base + rate * 2) * 100) ∧
    (∀ ci co, (create_registration
        { input_data with check_in_date := ci, check_out_date := co } newId now db).1.amount =
      (create_registration input_data newId now db).1.amount) := by
  refine ⟨?_, ?_, ?_, ?_⟩
  · intro hacc
    cases hrt : input_data.room_type with
    | none => simp [create_registration, hacc, hrt, hbase]
    | some rt => simp [create_registration, hacc, hrt, hbase]
  · intro hrt
    cases hacc : input_data.accommodation_required <;>
      simp [create_registration, hacc, hrt, hbase]
  · intro rt rate hacc hrt hrate
    have hne : rt ≠ "" := by rintro rfl; simp [ROOM_PRICING] at hrate
    have hbe : (rt == "") = false := beq_eq_false_iff_ne.mpr hne
    simp [create_registration, hacc, hrt, hbase, hbe, hrate]
  · intro ci co
    cases hacc : input_data.accommodation_required <;>
      cases hrt : input_data.room_type <;>
        simp [create_registration, hacc, hrt]

/-- C5 witness: a regular delegate (15000) with a deluxe room (8000/night,
two nights) is charged `(15000 + 8000 * 2) * 100` paise. -/
theorem create_registration_amount_formula_witness :
    (create_registration regInputAccom "reg-2" now0 []).1.amount = (15000 + 8000 * 2) * 100 :=
  (create_registration_amount_formula regInputAccom "reg-2" now0 [] 15000 rfl).2.2.1
    "deluxe" 8000 rfl rfl rfl

/-- C6: a category outside the pricing table, or a room type outside the room
table, contributes zero to the amount, and registration creation still
succeeds — the record is built (status `pending`, the requested id) and
appended to the store, for every input. -/
theorem create_registration_unknown_keys (input_data : RegistrationCreate)
    (newId now : String) (db : List Registration) :
    (PRICING input_data.category = none → input_data.accommodation_required = false →
      (create_registration input_data newId now db).1.amount = 0) ∧
    (∀ rt rate, PRICING input_data.category = none →
      input_data.accommodation_required = true → input_data.room_type = some rt →
      ROOM_PRICING rt = some rate →
      (create_registration input_data newId now db).1.amount = rate * 2 * 100) ∧
    (∀ rt, input_data.room_type = some rt → ROOM_PRICING rt = none →
      (create_registration input_data newId now db).1.amount =
        (PRICING input_data.category).getD 0 * 100) ∧
    ((create_registration input_data newId now db).2 =
       db ++ [(create_registration input_data newId now db).1] ∧
     (create_registration input_data newId now db).1.id = newId ∧
     (create_registration input_data newId now db).1.payment_status = "pending") := by
  refine ⟨?_, ?_, ?_, rfl, rfl, rfl⟩
  · intro hbase hacc
    cases hrt : input_data.room_type with
    | none => simp [create_registration, hacc, hrt, hbase]
    | some rt => simp [create_registration, hacc, hrt, hbase]
  · intro rt rate hbase hacc hrt hrate
    have hne : rt ≠ "" := by rintro rfl; simp [ROOM_PRICING] at hrate
    have hbe : (rt == "") = false := beq_eq_false_iff_ne.mpr hne
    simp [create_registration, hacc, hrt, hbase, hbe, hrate]
  · intro rt hrt hrate
    cases hacc : input_data.accommodation_required with
    | false => simp [create_registration, hacc, hrt]
    | true =>
      by_cases hbe : (rt == "") = true
      · simp [create_registration, hacc, hrt, hbe]
      · simp [create_registration, hacc, hrt, Bool.not_eq_true .. ▸ hbe, hrate]

/-- C6 witness: category `alien_vip` and room `tent` are in neither table; the
registration is still created, with amount `0 * 100 = 0` and the record
appended to the store. -/
theorem create_registration_unknown_keys_witness :
    (create_registration regInputUnknown "reg-3" now0 []).1.amount =
      (PRICING regInputUnknown.category).getD 0 * 100 ∧
    (create_registration regInputUnknown "reg-3" now0 []).2 =
      [] ++ [(create_registration regInputUnknown "reg-3" now0 []).1] :=
  ⟨(create_registration_unknown_keys regInputUnknown "reg-3" now0 []).2.2.1 "tent" rfl rfl,
   ((create_registration_unknown_keys regInputUnknown "reg-3" now0 []).2.2.2).1⟩

/-- C7: creating a `delegate_early_bird` registration without accommodation
stores amount 1200000 paise, and fetching it by id returns the identical
record, that amount included. -/
theorem delegate_early_bird_roundtrip :
    (create_registration regInputSample "reg-1" now0 []).1.amount = 1200000 ∧
    get_registration "reg-1" (create_registration regInputSample "reg-1" now0 []).2 =
      .ok (create_registration regInputSample "reg-1" now0 []).1 :=
  ⟨rfl, rfl⟩

/-- C8: `payment_status` moves only to `"completed"` and only on a successful
verification; it never reverts; order creation never touches it; and a second
validly signed verification of an already-completed registration still
succeeds and overwrites `payment_id`, leaving the status `"completed"`. -/
theorem payment_status_state_machine (cfg : GatewayConfig) (so : Bool)
    (payment_data : PaymentVerification)
    (gw : GatewayOrderRequest → Except String GatewayOrder) (order_data : OrderCreate)
    (db : List Registration) :
    (∀ i : Nat, (verify_payment cfg so payment_data db).2.get? i = db.get? i ∨
       ∃ r, db.get? i = some r ∧
         (verify_payment cfg so payment_data db).2.get? i =
           some { r with payment_status := "completed",
                         payment_id := some payment_data.razorpay_payment_id } ∧
         (verify_payment cfg so payment_data db).1 =
           .ok ⟨"success", "Payment verified successfully"⟩) ∧
    (∀ (i : Nat) (r r' : Registration), db.get? i = some r →
       (verify_payment cfg so payment_data db).2.get? i = some r' →
       r.payment_status = "completed" → r'.payment_status = "completed") ∧
    ((create_order cfg gw order_data so db).2.map Registration.payment_status =
       db.map Registration.payment_status) ∧
    (∀ r : Registration, so = true → razorpayConfigured cfg = true →
       payment_data.razorpay_signature = hmacSha256Hex cfg.razorpay_key_secret
         (payment_data.razorpay_order_id ++ "|" ++ payment_data.razorpay_payment_id) →
       get_registration payment_data.registration_id db = .ok r →
       r.payment_status = "completed" →
       (verify_payment cfg so payment_data db).1 =
         .ok ⟨"success", "Payment verified successfully"⟩ ∧
       get_registration payment_data.registration_id (verify_payment cfg so payment_data db).2 =
         .ok { r with payment_status := "completed",
                      payment_id := some payment_data.razorpay_payment_id }) := by
  have main : ∀ i : Nat, (verify_payment cfg so payment_data db).2.get? i = db.get? i ∨
      ∃ r, db.get? i = some r ∧
        (verify_payment cfg so payment_data db).2.get? i =
          some { r with payment_status := "completed",
                        payment_id := some payment_data.razorpay_payment_id } ∧
        (verify_payment cfg so payment_data db).1 =
          .ok ⟨"success", "Payment verified successfully"⟩ := by
    intro i
    rcases verify_payment_snd cfg so payment_data db with h | ⟨h, hok⟩
    · left; rw [h]
    · rcases update_first_get? db payment_data.registration_id
        (fun r => { r with payment_status := "completed",
                           payment_id := some payment_data.razorpay_payment_id }) i with hg | hg
      · left; rw [h]; exact hg
      · cases hdb : db.get? i with
        | none => left; rw [h, hg, hdb]; rfl
        | some r => exact Or.inr ⟨r, rfl, by rw [h, hg, hdb]; rfl, hok⟩
  refine ⟨main, ?_, ?_, ?_⟩
  · intro i r r' hdb hdb' hcomp
    rcases main i with h | ⟨r0, h0, h1, _⟩
    · rw [h, hdb] at hdb'
      injection hdb' with hh
      rw [← hh]; exact hcomp
    · rw [h1] at hdb'
      injection hdb' with hh
      rw [← hh]
  · rcases create_order_snd cfg gw order_data so db with h | ⟨oid, h⟩
    · rw [h]
    · rw [h]; exact update_first_map _ _ _ _ (fun r => rfl)
  · intro r hso hconf hsig hfound _hcomp
    subst hso
    exact verify_valid_core cfg payment_data db r hconf hsig hfound

/-- C8 witness: `reg-1` already completed with `pay_1`; the validly signed
second verification with `pay_2` succeeds, keeps the status `"completed"`,
and overwrites `payment_id` to `pay_2`. -/
theorem payment_status_state_machine_witness :
    (verify_payment cfgSample true pvSecond dbCompleted).1 =
      .ok ⟨"success", "Payment verified successfully"⟩ ∧
    get_registration pvSecond.registration_id
        (verify_payment cfgSample true pvSecond dbCompleted).2 =
      .ok { regCompleted with payment_status := "completed",
                              payment_id := some pvSecond.razorpay_payment_id } :=
  (payment_status_state_machine cfgSample true pvSecond echoGateway odSample dbCompleted).2.2.2
    regCompleted rfl rfl rfl rfl rfl

end Backend
